import Mathlib

/-
Verification of the EIP-7980 Ed25519 transaction signature verification
module (Go). The module is a single pure function built on two external
cryptographic primitives: RFC 8032 section 5.1.7 pure Ed25519 signature
verification (crypto/ed25519) and the legacy Keccak-256 hash
(golang.org/x/crypto/sha3, NewLegacyKeccak256). Both primitives are
modelled as parameters of the development, bundled in CryptoPrimitives;
the repository code is embedded over them byte-for-byte.
-/

namespace EIP7980

/-- Bytes are modelled as natural numbers; the code only moves them
around, compares them and hashes them, never computes on them. -/
abbrev Byte := Nat

/-- A Go byte slice: a list of bytes. -/
abbrev Bytes := List Byte

/-- The two external cryptographic primitives the module calls.
ed25519Verify takes publicKey, message, signature, in the argument
order of crypto/ed25519 Verify, and returns the RFC 8032 section
5.1.7 pure Ed25519 decision. keccak256 is the legacy Keccak-256 hash
(golang.org/x/crypto/sha3 NewLegacyKeccak256); its Sum output is
always 32 bytes, recorded by keccak256_length. -/
structure CryptoPrimitives where
  ed25519Verify : Bytes → Bytes → Bytes → Bool
  keccak256 : Bytes → Bytes
  keccak256_length : ∀ b, (keccak256 b).length = 32

/-- ALG_TYPE constant of the module: algorithm type identifier. -/
def ALG_TYPE : Byte := 0x00

/-- GAS_PENALTY constant of the module: additional gas cost. -/
def GAS_PENALTY : Nat := 1000

/-- MAX_SIZE constant of the module: total size, 64 byte signature
plus 32 byte public key. -/
def MAX_SIZE : Nat := 96

/-- The two failure kinds the module can report: invalid length of
the signature info, or failed cryptographic verification. The main
package reports them as distinct formatted errors, the test package
as the typed values ErrInvalidLength and ErrInvalidSignature. -/
inductive VerifyError where
  | invalidLength
  | invalidSignature
deriving DecidableEq

/-- deriveAddress from the main package: the last 20 bytes of the
keccak256 hash of the public key bytes. -/
def deriveAddress (C : CryptoPrimitives) (publicKey : Bytes) : Bytes :=
  let fullHash := C.keccak256 publicKey
  fullHash.drop (fullHash.length - 20)

/-- Verify from the main package: reject unless signatureInfo has
exactly MAX_SIZE bytes, split it into the first 64 bytes (signature)
and bytes 64 to 96 (public key), run Ed25519 verification of the
signature over payloadHash under the public key, and on success
derive the address from the public key. -/
def Verify (C : CryptoPrimitives) (signatureInfo : Bytes) (payloadHash : Bytes) :
    Except VerifyError Bytes :=
  if signatureInfo.length ≠ MAX_SIZE then
    Except.error VerifyError.invalidLength
  else
    let signature := signatureInfo.take 64
    let publicKey := (signatureInfo.drop 64).take 32
    if !(C.ed25519Verify publicKey payloadHash signature) then
      Except.error VerifyError.invalidSignature
    else
      Except.ok (deriveAddress C publicKey)

/-- SignatureInfo from the main package: a 64 byte signature array
and a 32 byte public key array. The Go fields are fixed size arrays;
the length facts are carried as fields. -/
structure SignatureInfo where
  Signature : Bytes
  PublicKey : Bytes
  signature_length : Signature.length = 64
  publicKey_length : PublicKey.length = 32

/-- ParseSignatureInfo from the main package: reject unless the data
has exactly MAX_SIZE bytes, then copy the first 64 bytes into the
signature array and bytes 64 to 96 into the public key array. -/
def ParseSignatureInfo (data : Bytes) : Except String SignatureInfo :=
  if h : data.length ≠ MAX_SIZE then
    Except.error "invalid data length"
  else
    Except.ok
      { Signature := data.take 64
        PublicKey := (data.drop 64).take 32
        signature_length := by
          have hd : data.length = MAX_SIZE := not_not.mp h
          simp [List.length_take, hd, MAX_SIZE]
        publicKey_length := by
          have hd : data.length = MAX_SIZE := not_not.mp h
          simp [List.length_take, List.length_drop, hd, MAX_SIZE] }

/-- ToBytes from the main package: a fresh 96 byte buffer holding the
signature bytes followed by the public key bytes. Both copies are
exact because the Go fields are fixed size arrays of 64 and 32
bytes. -/
def SignatureInfo.ToBytes (s : SignatureInfo) : Bytes :=
  s.Signature ++ s.PublicKey

/-- ErrInvalidLength of the test package. -/
def ErrInvalidLength : VerifyError := VerifyError.invalidLength

/-- ErrInvalidSignature of the test package. -/
def ErrInvalidSignature : VerifyError := VerifyError.invalidSignature

/-- deriveAddress from the test package: the last 20 bytes of the
keccak256 hash of the public key bytes. -/
def deriveAddressTest (C : CryptoPrimitives) (publicKey : Bytes) : Bytes :=
  let fullHash := C.keccak256 publicKey
  fullHash.drop (fullHash.length - 20)

/-- Verify from the test package: same algorithm as the main package,
reporting the typed errors ErrInvalidLength and ErrInvalidSignature. -/
def VerifyTest (C : CryptoPrimitives) (signatureInfo : Bytes) (payloadHash : Bytes) :
    Except VerifyError Bytes :=
  if signatureInfo.length ≠ MAX_SIZE then
    Except.error ErrInvalidLength
  else
    let signature := signatureInfo.take 64
    let publicKey := (signatureInfo.drop 64).take 32
    if !(C.ed25519Verify publicKey payloadHash signature) then
      Except.error ErrInvalidSignature
    else
      Except.ok (deriveAddressTest C publicKey)

/-- Sample primitives for concrete evaluation: verification always
succeeds and the hash is 32 zero bytes. -/
def sampleAccept : CryptoPrimitives where
  ed25519Verify := fun _ _ _ => true
  keccak256 := fun _ => List.replicate 32 0
  keccak256_length := by intro b; simp

/-- Sample primitives for concrete evaluation: verification always
fails and the hash is 32 zero bytes. -/
def sampleReject : CryptoPrimitives where
  ed25519Verify := fun _ _ _ => false
  keccak256 := fun _ => List.replicate 32 0
  keccak256_length := by intro b; simp

/-- The derived address always has exactly 20 bytes. -/
theorem deriveAddress_length (C : CryptoPrimitives) (publicKey : Bytes) :
    (deriveAddress C publicKey).length = 20 := by
  simp [deriveAddress, C.keccak256_length]

/-- C1: for every 96 byte signature info and 32 byte payload hash, and for
every Ed25519 primitive, Verify succeeds exactly when the primitive accepts
the first 64 bytes as a signature over the payload hash under the last 32
bytes as public key, and a rejection by the primitive yields the invalid
signature failure: no success path bypasses the verification step. -/
theorem C1_verify_iff_ed25519 (C : CryptoPrimitives) (s h : Bytes)
    (hs : s.length = 96) (_hh : h.length = 32) :
    ((∃ a, Verify C s h = Except.ok a) ↔
      C.ed25519Verify ((s.drop 64).take 32) h (s.take 64) = true)
    ∧ (C.ed25519Verify ((s.drop 64).take 32) h (s.take 64) = false →
        Verify C s h = Except.error VerifyError.invalidSignature) := by
  constructor
  · cases hb : C.ed25519Verify ((s.drop 64).take 32) h (s.take 64) <;>
      simp [Verify, hs, MAX_SIZE, hb]
  · intro hb
    simp [Verify, hs, MAX_SIZE, hb]

/-- Witness for C1 at concrete inputs. -/
theorem C1_verify_iff_ed25519_witness :
    ((∃ a, Verify sampleAccept (List.replicate 96 0) (List.replicate 32 0) =
        Except.ok a) ↔
      sampleAccept.ed25519Verify (((List.replicate 96 (0 : Byte)).drop 64).take 32)
        (List.replicate 32 0) ((List.replicate 96 (0 : Byte)).take 64) = true)
    ∧ (sampleAccept.ed25519Verify (((List.replicate 96 (0 : Byte)).drop 64).take 32)
        (List.replicate 32 0) ((List.replicate 96 (0 : Byte)).take 64) = false →
        Verify sampleAccept (List.replicate 96 0) (List.replicate 32 0) =
          Except.error VerifyError.invalidSignature) :=
  C1_verify_iff_ed25519 sampleAccept (List.replicate 96 0) (List.replicate 32 0)
    (by simp) (by simp)

/-- C2: for any signing function and keypair such that the Ed25519 primitive
accepts the produced 64 byte signature over the 32 byte digest under the 32
byte public key, Verify on the concatenation of signature and public key
succeeds and returns exactly the last 20 bytes of the keccak256 hash of the
public key. -/
theorem C2_sign_verify_roundtrip (C : CryptoPrimitives)
    (sign : Bytes → Bytes → Bytes) (sk pk h : Bytes)
    (_hh : h.length = 32) (hpk : pk.length = 32)
    (hsig : (sign sk h).length = 64)
    (hver : C.ed25519Verify pk h (sign sk h) = true) :
    Verify C (sign sk h ++ pk) h = Except.ok ((C.keccak256 pk).drop 12) := by
  have hlen : (sign sk h ++ pk).length = 96 := by
    simp [hsig, hpk]
  have htake : (sign sk h ++ pk).take 64 = sign sk h := by
    rw [← hsig, List.take_left]
  have hdrop : (sign sk h ++ pk).drop 64 = pk := by
    rw [← hsig, List.drop_left]
  have hpk' : pk.take 32 = pk := by
    rw [← hpk, List.take_length]
  rw [Verify]
  simp only [hlen, MAX_SIZE, ne_eq, htake, hdrop, hpk', hver]
  simp [deriveAddress, C.keccak256_length]

/-- Witness for C2 at concrete inputs. -/
theorem C2_sign_verify_roundtrip_witness :
    Verify sampleAccept ((fun _ _ => List.replicate 64 3) ([] : Bytes)
        (List.replicate 32 2) ++ List.replicate 32 5) (List.replicate 32 2) =
      Except.ok ((sampleAccept.keccak256 (List.replicate 32 5)).drop 12) :=
  C2_sign_verify_roundtrip sampleAccept (fun _ _ => List.replicate 64 3)
    [] (List.replicate 32 5) (List.replicate 32 2)
    (by simp) (by simp) (by simp) (by simp [sampleAccept])

/-- C3: for every byte sequence of length different from 96 and every
payload hash, Verify fails with the invalid length error; the result is the
same for all cryptographic primitives, so the length check precedes and
forecloses any cryptographic work. -/
theorem C3_wrong_length_rejected (C : CryptoPrimitives) (s h : Bytes)
    (hs : s.length ≠ 96) :
    Verify C s h = Except.error VerifyError.invalidLength := by
  simp [Verify, MAX_SIZE, hs]

/-- Witness for C3 at a concrete 50 byte input. -/
theorem C3_wrong_length_rejected_witness :
    (List.replicate 50 (0 : Byte)).length ≠ 96 ∧
      Verify sampleAccept (List.replicate 50 0) (List.replicate 32 0) =
        Except.error VerifyError.invalidLength :=
  ⟨by simp, C3_wrong_length_rejected sampleAccept (List.replicate 50 0)
    (List.replicate 32 0) (by simp)⟩

/-- C4: whenever Verify succeeds, the returned address is exactly the last
20 bytes of the keccak256 hash of the public key bytes at offsets 64 to 96
of the signature info, and any other successful call whose input carries the
same public key bytes returns the same address: the address is a pure
function of the public key bytes alone. -/
theorem C4_address_from_public_key (C : CryptoPrimitives) (s h a : Bytes)
    (hok : Verify C s h = Except.ok a) :
    a = (C.keccak256 ((s.drop 64).take 32)).drop 12
    ∧ ∀ s2 h2 a2, Verify C s2 h2 = Except.ok a2 →
        (s2.drop 64).take 32 = (s.drop 64).take 32 → a2 = a := by
  have key : ∀ s' h' a', Verify C s' h' = Except.ok a' →
      a' = (C.keccak256 ((s'.drop 64).take 32)).drop 12 := by
    intro s' h' a' hok'
    by_cases hlen : s'.length = MAX_SIZE
    · cases hb : C.ed25519Verify ((s'.drop 64).take 32) h' (s'.take 64)
      · simp [Verify, hlen, hb] at hok'
      · simp [Verify, hlen, hb] at hok'
        rw [← hok']
        simp [deriveAddress, C.keccak256_length]
    · simp [Verify, hlen] at hok'
  refine ⟨key s h a hok, ?_⟩
  intro s2 h2 a2 hok2 hsame
  rw [key s2 h2 a2 hok2, hsame, ← key s h a hok]

/-- Witness for C4 at concrete inputs. -/
theorem C4_address_from_public_key_witness :
    List.replicate 20 (0 : Byte) =
      (sampleAccept.keccak256 (((List.replicate 96 (0 : Byte)).drop 64).take 32)).drop 12
    ∧ ∀ s2 h2 a2, Verify sampleAccept s2 h2 = Except.ok a2 →
        (s2.drop 64).take 32 = ((List.replicate 96 (0 : Byte)).drop 64).take 32 →
        a2 = List.replicate 20 0 :=
  C4_address_from_public_key sampleAccept (List.replicate 96 0)
    (List.replicate 32 0) (List.replicate 20 0) (by rfl)

/-- C5: every call to Verify hits exactly one of three terminal outcomes:
success with a 20 byte address, the invalid length failure, or the invalid
signature failure, and the two failure kinds are distinct typed values. -/
theorem C5_three_outcomes (C : CryptoPrimitives) (s h : Bytes) :
    ((∃ a, Verify C s h = Except.ok a ∧ a.length = 20)
      ∨ Verify C s h = Except.error VerifyError.invalidLength
      ∨ Verify C s h = Except.error VerifyError.invalidSignature)
    ∧ VerifyError.invalidLength ≠ VerifyError.invalidSignature := by
  refine ⟨?_, by simp⟩
  by_cases hlen : s.length = MAX_SIZE
  · cases hb : C.ed25519Verify ((s.drop 64).take 32) h (s.take 64)
    · right; right
      simp [Verify, hlen, hb]
    · left
      exact ⟨deriveAddress C ((s.drop 64).take 32),
        by simp [Verify, hlen, hb], deriveAddress_length C _⟩
  · right; left
    simp [Verify, hlen]

/-- C6: Verify is deterministic: byte for byte identical inputs under the
same primitives produce identical results; the function is a pure function
of its arguments and reads nothing else. -/
theorem C6_deterministic (C : CryptoPrimitives) (s1 s2 h1 h2 : Bytes)
    (hs : s1 = s2) (hh : h1 = h2) :
    Verify C s1 h1 = Verify C s2 h2 := by
  rw [hs, hh]

/-- Witness for C6 at concrete inputs. -/
theorem C6_deterministic_witness :
    Verify sampleAccept (List.replicate 96 0) (List.replicate 32 0) =
      Verify sampleAccept (List.replicate 96 0) (List.replicate 32 0) :=
  C6_deterministic sampleAccept (List.replicate 96 0) (List.replicate 96 0)
    (List.replicate 32 0) (List.replicate 32 0) rfl rfl

/-- C7: the protocol constants have the literal values 0x00, 1000 and 96,
and Verify fails with the invalid length error exactly when the input
length differs from MAX_SIZE, for all primitives and payload hashes. -/
theorem C7_constants :
    ALG_TYPE = 0x00 ∧ GAS_PENALTY = 1000 ∧ MAX_SIZE = 96
    ∧ ∀ (C : CryptoPrimitives) (s h : Bytes),
        Verify C s h = Except.error VerifyError.invalidLength ↔
          s.length ≠ MAX_SIZE := by
  refine ⟨rfl, rfl, rfl, ?_⟩
  intro C s h
  constructor
  · intro hv
    by_contra hlen
    cases hb : C.ed25519Verify ((s.drop 64).take 32) h (s.take 64) <;>
      simp [Verify, hlen, hb] at hv
  · intro hlen
    simp [Verify, hlen]

/-- C8: ParseSignatureInfo returns an error exactly when the input length
differs from 96, and on every 96 byte input it succeeds with a structure
whose ToBytes rebuilds the input byte for byte. -/
theorem C8_parse_tobytes_roundtrip (data : Bytes) :
    ((∃ e, ParseSignatureInfo data = Except.error e) ↔ data.length ≠ 96)
    ∧ (data.length = 96 →
        ∃ si, ParseSignatureInfo data = Except.ok si ∧
          SignatureInfo.ToBytes si = data) := by
  by_cases hlen : data.length = 96
  · have hne : ¬ data.length ≠ MAX_SIZE := by
      simp [MAX_SIZE, hlen]
    constructor
    · rw [ParseSignatureInfo, dif_neg hne]
      simp [hlen]
    · intro _
      refine ⟨⟨data.take 64, (data.drop 64).take 32,
        by simp [List.length_take, hlen],
        by simp [List.length_take, List.length_drop, hlen]⟩, ?_, ?_⟩
      · rw [ParseSignatureInfo, dif_neg hne]
      · have hdrop : (data.drop 64).take 32 = data.drop 64 := by
          have h32 : (data.drop 64).length = 32 := by
            simp [hlen]
          rw [← h32, List.take_length]
        simp only [SignatureInfo.ToBytes, hdrop]
        exact List.take_append_drop 64 data
  · have hne : data.length ≠ MAX_SIZE := by
      simp [MAX_SIZE, hlen]
    constructor
    · rw [ParseSignatureInfo, dif_pos hne]
      simp [hlen]
    · intro hc
      exact absurd hc hlen

/-- C9: under the 96 byte length guard the slices handed to the Ed25519
primitive always have exactly 64 bytes of signature and 32 bytes of public
key, and Verify reduces to the decision of the primitive on exactly those
slices, so the out of bounds and wrong size panic paths are unreachable. -/
theorem C9_slices_well_sized (C : CryptoPrimitives) (s h : Bytes)
    (hs : s.length = MAX_SIZE) :
    (s.take 64).length = 64 ∧ ((s.drop 64).take 32).length = 32
    ∧ Verify C s h =
        (if C.ed25519Verify ((s.drop 64).take 32) h (s.take 64) then
          Except.ok (deriveAddress C ((s.drop 64).take 32))
        else Except.error VerifyError.invalidSignature) := by
  refine ⟨?_, ?_, ?_⟩
  · simp [hs, MAX_SIZE]
  · simp [hs, MAX_SIZE]
  · cases hb : C.ed25519Verify ((s.drop 64).take 32) h (s.take 64) <;>
      simp [Verify, hs, hb]

/-- Witness for C9 at concrete inputs. -/
theorem C9_slices_well_sized_witness :
    ((List.replicate 96 (0 : Byte)).take 64).length = 64
    ∧ (((List.replicate 96 (0 : Byte)).drop 64).take 32).length = 32
    ∧ Verify sampleReject (List.replicate 96 0) (List.replicate 32 0) =
        (if sampleReject.ed25519Verify
            (((List.replicate 96 (0 : Byte)).drop 64).take 32)
            (List.replicate 32 0) ((List.replicate 96 (0 : Byte)).take 64) then
          Except.ok (deriveAddress sampleReject
            (((List.replicate 96 (0 : Byte)).drop 64).take 32))
        else Except.error VerifyError.invalidSignature) :=
  C9_slices_well_sized sampleReject (List.replicate 96 0) (List.replicate 32 0)
    (by simp [MAX_SIZE])

/-- C10: the Verify of the main package and the Verify of the test package
agree on every input: same success address or same failure kind. -/
theorem C10_main_test_equivalent (C : CryptoPrimitives) (s h : Bytes) :
    Verify C s h = VerifyTest C s h := rfl

end EIP7980
